import Mathlib

/-!
Keyinator's Mass Actions: the menu-event dispatcher of `src/src/plugin.c`.

A shallow embedding of `ts3plugin_initMenus` and `ts3plugin_onMenuItemEvent`.

* The host is a read-only snapshot (`Host`): every getter of the function-pointer
  table that the handler calls is a field, indexed by the server connection
  handler id.  Arrays handed back by the host are raw buffers (`List Nat`); the
  handler's loops `for (int c = 0; L[c]; c++)` stop at the first zero entry.
* Every effectful host call is recorded, in program order, as a `HostCall`; the
  handler is a function from the snapshot and the event to the list of calls it
  issues.  The `printf` at the top of the handler is not a host call and is left out.
* `anyID` (16 bit) and `uint64` values are natural numbers: the handler only
  compares them for equality and never does arithmetic on them.  The loop index
  is a C `int`; buffers are taken to have fewer than 2^31 entries.
* A null pointer argument is `none`.
-/

namespace MassActions

/-! ## Data model -/

/-- The host enumeration `enum PluginMenuType` (declared in the host SDK header,
which plugin.c includes but which is not part of `src/`).  Only the distinctness
of the three enumerators matters to the `switch`; `other` stands for any value
that is none of them. -/
inductive PluginMenuType where
  | PLUGIN_MENU_TYPE_GLOBAL
  | PLUGIN_MENU_TYPE_CHANNEL
  | PLUGIN_MENU_TYPE_CLIENT
  | other (v : Int)
  deriving DecidableEq, Repr

open PluginMenuType

/-- The anonymous menu-id `enum` of plugin.c, lines 220-265: the enumerators take
the values 0, 1, 2, ... in declaration order. -/
abbrev MENU_ID_GLOBAL_1 : Int := 0
abbrev MENU_ID_GLOBAL_2 : Int := 1
abbrev MENU_ID_GLOBAL_3 : Int := 2
abbrev MENU_ID_GLOBAL_4 : Int := 3
abbrev MENU_ID_GLOBAL_5 : Int := 4
abbrev MENU_ID_GLOBAL_6 : Int := 5
abbrev MENU_ID_GLOBAL_7 : Int := 6
abbrev MENU_ID_GLOBAL_8 : Int := 7
abbrev MENU_ID_GLOBAL_9 : Int := 8
abbrev MENU_ID_GLOBAL_10 : Int := 9
abbrev MENU_ID_GLOBAL_11 : Int := 10
abbrev MENU_ID_GLOBAL_12 : Int := 11
abbrev MENU_ID_GLOBAL_13 : Int := 12
abbrev MENU_ID_GLOBAL_14 : Int := 13
abbrev MENU_ID_GLOBAL_15 : Int := 14
abbrev MENU_ID_GLOBAL_16 : Int := 15
abbrev MENU_ID_GLOBAL_17 : Int := 16
abbrev MENU_ID_GLOBAL_18 : Int := 17
abbrev MENU_ID_GLOBAL_19 : Int := 18
abbrev MENU_ID_GLOBAL_20 : Int := 19
abbrev MENU_ID_GLOBAL_21 : Int := 20
abbrev MENU_ID_GLOBAL_22 : Int := 21
abbrev MENU_ID_GLOBAL_23 : Int := 22
abbrev MENU_ID_GLOBAL_24 : Int := 23
abbrev MENU_ID_GLOBAL_25 : Int := 24
abbrev MENU_ID_GLOBAL_26 : Int := 25
abbrev MENU_ID_GLOBAL_27 : Int := 26
abbrev MENU_ID_GLOBAL_28 : Int := 27
abbrev MENU_ID_CHANNEL_1 : Int := 28
abbrev MENU_ID_CHANNEL_2 : Int := 29
abbrev MENU_ID_CHANNEL_3 : Int := 30
abbrev MENU_ID_CHANNEL_4 : Int := 31
abbrev MENU_ID_CHANNEL_5 : Int := 32
abbrev MENU_ID_CHANNEL_6 : Int := 33
abbrev MENU_ID_CHANNEL_7 : Int := 34
abbrev MENU_ID_CHANNEL_8 : Int := 35
abbrev MENU_ID_CHANNEL_9 : Int := 36
abbrev MENU_ID_CHANNEL_10 : Int := 37
abbrev MENU_ID_CHANNEL_11 : Int := 38
abbrev MENU_ID_CHANNEL_12 : Int := 39
abbrev MENU_ID_CHANNEL_13 : Int := 40
abbrev MENU_ID_CHANNEL_14 : Int := 41
abbrev MENU_ID_CLIENT_1 : Int := 42
abbrev MENU_ID_CLIENT_2 : Int := 43

/-- A read-only snapshot of the host, one field per getter of `ts3Functions` that
the handler calls.  The first argument of every field is the
`serverConnectionHandlerID`.  The three list getters give the raw array the host
hands back, terminator included. -/
structure Host where
  /-- The array written by `getClientList`. -/
  getClientList : Nat → List Nat
  /-- The id written by `getClientID` (the actor). -/
  getClientID : Nat → Nat
  /-- The channel written by `getChannelOfClient` for a client id. -/
  getChannelOfClient : Nat → Nat → Nat
  /-- The array written by `getChannelClientList` for a channel id. -/
  getChannelClientList : Nat → Nat → List Nat
  /-- The array written by `getChannelList`. -/
  getChannelList : Nat → List Nat

/-- One effectful call into the host, with its arguments in the order of the call
site.  A `returnCode` of `none` is the null pointer.  The string argument of
`requestClientMove` is the fourth argument of the call; the two kick requests
carry their kick message there. -/
inductive HostCall where
  | requestClientMove (serverConnectionHandlerID clientID newChannelID : Nat)
      (password : String) (returnCode : Option String)
  | requestClientKickFromChannel (serverConnectionHandlerID clientID : Nat)
      (kickReason : String) (returnCode : Option String)
  | requestClientKickFromServer (serverConnectionHandlerID clientID : Nat)
      (kickReason : String) (returnCode : Option String)
  | requestClientSetIsTalker (serverConnectionHandlerID clientID : Nat)
      (isTalker : Int) (returnCode : Option String)
  | requestChannelDelete (serverConnectionHandlerID channelID : Nat)
      (force : Int) (returnCode : Option String)
  | setPluginMenuEnabled (pluginID : Option String) (menuID : Int) (enabled : Int)
  deriving DecidableEq, Repr

open HostCall

/-! ## The loops -/

/-- The loop `for (int c = 0; L[c]; c++) body(L[c])` over a host array: it runs
the body on each entry in order and stops at the first zero entry.  (Running off
the end of a buffer without terminator is out of the model; it stops there.) -/
def forEntries (L : List Nat) (body : Nat → List HostCall) : List HostCall :=
  match L with
  | [] => []
  | x :: rest => if x = 0 then [] else body x ++ forEntries rest body

/-- The loop `for (int c = lo; c <= 23; c++) body(c)` of the activate and
deactivate branches, with `lo = 21`: the body runs for c = 21, 22, 23. -/
def forMenuRange (body : Int → List HostCall) : List HostCall :=
  body 21 ++ body 22 ++ body 23

/-! ## `ts3plugin_onMenuItemEvent` -/

/-- The inner `switch (menuItemID)` of `case PLUGIN_MENU_TYPE_GLOBAL`
(plugin.c, lines 382-674).  Reads of the snapshot whose result is not used
(`clientChannel` in GLOBAL_13, 14, 16, 17) have no effect and are omitted. -/
def globalSwitch (h : Host) (pluginID : Option String) (serverConnectionHandlerID : Nat)
    (menuItemID : Int) : List HostCall :=
  if menuItemID = MENU_ID_GLOBAL_2 then
    let ClientList := h.getClientList serverConnectionHandlerID
    let myID := h.getClientID serverConnectionHandlerID
    let myChannel := h.getChannelOfClient serverConnectionHandlerID myID
    forEntries ClientList (fun cl =>
      let clientChannel := h.getChannelOfClient serverConnectionHandlerID cl
      if clientChannel ≠ myChannel then
        [requestClientMove serverConnectionHandlerID cl myChannel "" none]
      else [])
  else if menuItemID = MENU_ID_GLOBAL_6 then
    let ClientList := h.getClientList serverConnectionHandlerID
    let myID := h.getClientID serverConnectionHandlerID
    let myChannel := h.getChannelOfClient serverConnectionHandlerID myID
    forEntries ClientList (fun cl =>
      let clientChannel := h.getChannelOfClient serverConnectionHandlerID cl
      if clientChannel = myChannel ∧ cl ≠ myID then
        [requestClientKickFromChannel serverConnectionHandlerID cl "" none]
      else [])
  else if menuItemID = MENU_ID_GLOBAL_7 then
    let ClientList := h.getClientList serverConnectionHandlerID
    let myID := h.getClientID serverConnectionHandlerID
    let myChannel := h.getChannelOfClient serverConnectionHandlerID myID
    forEntries ClientList (fun cl =>
      let clientChannel := h.getChannelOfClient serverConnectionHandlerID cl
      if clientChannel = myChannel then
        [requestClientKickFromChannel serverConnectionHandlerID cl "" none]
      else [])
  else if menuItemID = MENU_ID_GLOBAL_9 then
    let ClientList := h.getClientList serverConnectionHandlerID
    let myID := h.getClientID serverConnectionHandlerID
    let myChannel := h.getChannelOfClient serverConnectionHandlerID myID
    forEntries ClientList (fun cl =>
      let clientChannel := h.getChannelOfClient serverConnectionHandlerID cl
      if clientChannel = myChannel ∧ cl ≠ myID then
        [requestClientKickFromServer serverConnectionHandlerID cl "" none]
      else [])
  else if menuItemID = MENU_ID_GLOBAL_10 then
    let ClientList := h.getClientList serverConnectionHandlerID
    let myID := h.getClientID serverConnectionHandlerID
    let myChannel := h.getChannelOfClient serverConnectionHandlerID myID
    forEntries ClientList (fun cl =>
      let clientChannel := h.getChannelOfClient serverConnectionHandlerID cl
      if clientChannel = myChannel ∧ cl ≠ myID then
        [requestClientKickFromServer serverConnectionHandlerID cl "" none]
      else [])
    ++ [requestClientKickFromServer serverConnectionHandlerID myID "" none]
  else if menuItemID = MENU_ID_GLOBAL_13 then
    let ClientList := h.getClientList serverConnectionHandlerID
    let myID := h.getClientID serverConnectionHandlerID
    forEntries ClientList (fun cl =>
      if cl ≠ myID then
        [requestClientKickFromChannel serverConnectionHandlerID cl "" none]
      else [])
  else if menuItemID = MENU_ID_GLOBAL_14 then
    let ClientList := h.getClientList serverConnectionHandlerID
    forEntries ClientList (fun cl =>
      [requestClientKickFromChannel serverConnectionHandlerID cl "" none])
  else if menuItemID = MENU_ID_GLOBAL_16 then
    let ClientList := h.getClientList serverConnectionHandlerID
    let myID := h.getClientID serverConnectionHandlerID
    forEntries ClientList (fun cl =>
      if cl ≠ myID then
        [requestClientKickFromServer serverConnectionHandlerID cl "" none]
      else [])
  else if menuItemID = MENU_ID_GLOBAL_17 then
    let ClientList := h.getClientList serverConnectionHandlerID
    let myID := h.getClientID serverConnectionHandlerID
    forEntries ClientList (fun cl =>
      if cl ≠ myID then
        [requestClientKickFromServer serverConnectionHandlerID cl "" none]
      else [])
    ++ [requestClientKickFromServer serverConnectionHandlerID myID "" none]
  else if menuItemID = MENU_ID_GLOBAL_18 then
    let ClientList := h.getClientList serverConnectionHandlerID
    let myID := h.getClientID serverConnectionHandlerID
    let myChannel := h.getChannelOfClient serverConnectionHandlerID myID
    forEntries ClientList (fun cl =>
      let clientChannel := h.getChannelOfClient serverConnectionHandlerID cl
      if clientChannel = myChannel then
        [requestClientSetIsTalker serverConnectionHandlerID cl 1 none]
      else [])
  else if menuItemID = MENU_ID_GLOBAL_19 then
    let ClientList := h.getClientList serverConnectionHandlerID
    let myID := h.getClientID serverConnectionHandlerID
    let myChannel := h.getChannelOfClient serverConnectionHandlerID myID
    forEntries ClientList (fun cl =>
      let clientChannel := h.getChannelOfClient serverConnectionHandlerID cl
      if clientChannel = myChannel then
        [requestClientSetIsTalker serverConnectionHandlerID cl 0 none]
      else [])
  else if menuItemID = MENU_ID_GLOBAL_21 then
    forMenuRange (fun c => [setPluginMenuEnabled pluginID c 1])
    ++ [setPluginMenuEnabled pluginID 20 0]
  else if menuItemID = MENU_ID_GLOBAL_22 then
    forMenuRange (fun c => [setPluginMenuEnabled pluginID c 0])
    ++ [setPluginMenuEnabled pluginID 20 1]
  else if menuItemID = MENU_ID_GLOBAL_23 then
    let ChannelList := h.getChannelList serverConnectionHandlerID
    forEntries ChannelList (fun ch =>
      [requestChannelDelete serverConnectionHandlerID ch 1 none])
  else if menuItemID = MENU_ID_GLOBAL_24 then
    let ChannelList := h.getChannelList serverConnectionHandlerID
    forEntries ChannelList (fun ch =>
      [requestChannelDelete serverConnectionHandlerID ch 0 none])
  else []

/-- The inner `switch (menuItemID)` of `case PLUGIN_MENU_TYPE_CHANNEL`
(plugin.c, lines 677-792).  Reads whose result is not used (`ClientChannel` in
CHANNEL_9 and CHANNEL_10) are omitted. -/
def channelSwitch (h : Host) (serverConnectionHandlerID : Nat)
    (menuItemID : Int) (selectedItemID : Nat) : List HostCall :=
  if menuItemID = MENU_ID_CHANNEL_2 then
    let ClientID := h.getClientID serverConnectionHandlerID
    let ClientChannel := h.getChannelOfClient serverConnectionHandlerID ClientID
    let ChannelClients := h.getChannelClientList serverConnectionHandlerID selectedItemID
    forEntries ChannelClients (fun cl =>
      [requestClientMove serverConnectionHandlerID cl ClientChannel "" none])
  else if menuItemID = MENU_ID_CHANNEL_6 then
    let ClientID := h.getClientID serverConnectionHandlerID
    let ChannelClients := h.getChannelClientList serverConnectionHandlerID selectedItemID
    forEntries ChannelClients (fun cl =>
      if cl ≠ ClientID then
        [requestClientKickFromChannel serverConnectionHandlerID cl "" none]
      else [])
  else if menuItemID = MENU_ID_CHANNEL_7 then
    let ChannelClients := h.getChannelClientList serverConnectionHandlerID selectedItemID
    forEntries ChannelClients (fun cl =>
      [requestClientKickFromChannel serverConnectionHandlerID cl "" none])
  else if menuItemID = MENU_ID_CHANNEL_9 then
    let ClientID := h.getClientID serverConnectionHandlerID
    let ChannelClients := h.getChannelClientList serverConnectionHandlerID selectedItemID
    forEntries ChannelClients (fun cl =>
      if cl ≠ ClientID then
        [requestClientKickFromServer serverConnectionHandlerID cl "" none]
      else [])
  else if menuItemID = MENU_ID_CHANNEL_10 then
    let ClientID := h.getClientID serverConnectionHandlerID
    let ChannelClients := h.getChannelClientList serverConnectionHandlerID selectedItemID
    forEntries ChannelClients (fun cl =>
      if cl ≠ ClientID then
        [requestClientKickFromServer serverConnectionHandlerID cl "" none]
      else [])
    ++ [requestClientKickFromServer serverConnectionHandlerID ClientID "" none]
  else if menuItemID = MENU_ID_CHANNEL_13 then
    let ClientID := h.getClientID serverConnectionHandlerID
    let ClientChannel := h.getChannelOfClient serverConnectionHandlerID ClientID
    let ChannelClients := h.getChannelClientList serverConnectionHandlerID ClientChannel
    forEntries ChannelClients (fun cl =>
      [requestClientMove serverConnectionHandlerID cl selectedItemID "" none])
  else if menuItemID = MENU_ID_CHANNEL_14 then
    let ServerClients := h.getClientList serverConnectionHandlerID
    forEntries ServerClients (fun cl =>
      let ClientChannel := h.getChannelOfClient serverConnectionHandlerID cl
      if ClientChannel ≠ selectedItemID then
        [requestClientMove serverConnectionHandlerID cl selectedItemID "" none]
      else [])
  else []

/-- The inner `switch (menuItemID)` of `case PLUGIN_MENU_TYPE_CLIENT`
(plugin.c, lines 796-805): every branch is an empty `break`. -/
def clientSwitch (menuItemID : Int) : List HostCall :=
  if menuItemID = MENU_ID_CLIENT_1 then []
  else if menuItemID = MENU_ID_CLIENT_2 then []
  else []

/-- The handler `ts3plugin_onMenuItemEvent` (plugin.c, lines 377-810), as the list
of host calls it issues.  `pluginID` is the file-level variable the handler reads.
The `case PLUGIN_MENU_TYPE_GLOBAL` has no `break` after its inner switch, so
control falls through into `case PLUGIN_MENU_TYPE_CHANNEL`. -/
def ts3plugin_onMenuItemEvent (h : Host) (pluginID : Option String)
    (serverConnectionHandlerID : Nat) (type : PluginMenuType) (menuItemID : Int)
    (selectedItemID : Nat) : List HostCall :=
  match type with
  | PLUGIN_MENU_TYPE_GLOBAL =>
      globalSwitch h pluginID serverConnectionHandlerID menuItemID
      ++ channelSwitch h serverConnectionHandlerID menuItemID selectedItemID
  | PLUGIN_MENU_TYPE_CHANNEL =>
      channelSwitch h serverConnectionHandlerID menuItemID selectedItemID
  | PLUGIN_MENU_TYPE_CLIENT => clientSwitch menuItemID
  | other _ => []

/-! ## `ts3plugin_initMenus` -/

/-- A menu descriptor as `createMenuItem` fills it (plugin.c, lines 201-208). -/
structure PluginMenuItem where
  type : PluginMenuType
  id : Int
  text : String
  icon : String
  deriving DecidableEq, Repr

/-- What `ts3plugin_initMenus` does, in program order. -/
structure InitMenus where
  /-- The array size `sz = x + 1` declared by `BEGIN_CREATE_MENUS(x)`. -/
  sz : Nat
  /-- The slots written through `(*menuItems)[n++] = ...`, in order: one per
  `CREATE_MENU_ITEM`, then the `NULL` (`none`) written by `END_CREATE_MENUS`. -/
  menuItems : List (Option PluginMenuItem)
  /-- The host calls issued between the `CREATE_MENU_ITEM` lines. -/
  hostCalls : List HostCall

/-- The function `ts3plugin_initMenus` (plugin.c, lines 273-367).  Every menu
text is shorter than the buffer `_strcpy` truncates to, so it is stored whole. -/
def ts3plugin_initMenus (pluginID : Option String) : InitMenus where
  sz := 7 + 1
  menuItems :=
    [ some ⟨PLUGIN_MENU_TYPE_GLOBAL, MENU_ID_GLOBAL_1, "[MOVING]", ""⟩,
      some ⟨PLUGIN_MENU_TYPE_GLOBAL, MENU_ID_GLOBAL_2, "Move all clients into own channel", ""⟩,
      some ⟨PLUGIN_MENU_TYPE_GLOBAL, MENU_ID_GLOBAL_25, "", ""⟩,
      some ⟨PLUGIN_MENU_TYPE_GLOBAL, MENU_ID_GLOBAL_3, "[KICKING]", ""⟩,
      some ⟨PLUGIN_MENU_TYPE_GLOBAL, MENU_ID_GLOBAL_4, "=[clients in channel]", ""⟩,
      some ⟨PLUGIN_MENU_TYPE_GLOBAL, MENU_ID_GLOBAL_5, "==[from channel]", ""⟩,
      some ⟨PLUGIN_MENU_TYPE_GLOBAL, MENU_ID_GLOBAL_6, "everyone (but you)", ""⟩,
      some ⟨PLUGIN_MENU_TYPE_GLOBAL, MENU_ID_GLOBAL_7, "everyone", ""⟩,
      some ⟨PLUGIN_MENU_TYPE_GLOBAL, MENU_ID_GLOBAL_8, "==[from server]", ""⟩,
      some ⟨PLUGIN_MENU_TYPE_GLOBAL, MENU_ID_GLOBAL_9, "everyone (but you)", ""⟩,
      some ⟨PLUGIN_MENU_TYPE_GLOBAL, MENU_ID_GLOBAL_10, "everyone", ""⟩,
      some ⟨PLUGIN_MENU_TYPE_GLOBAL, MENU_ID_GLOBAL_11, "=[clients in server]", ""⟩,
      some ⟨PLUGIN_MENU_TYPE_GLOBAL, MENU_ID_GLOBAL_12, "==[from channel]", ""⟩,
      some ⟨PLUGIN_MENU_TYPE_GLOBAL, MENU_ID_GLOBAL_13, "everyone (but you)", ""⟩,
      some ⟨PLUGIN_MENU_TYPE_GLOBAL, MENU_ID_GLOBAL_14, "everyone", ""⟩,
      some ⟨PLUGIN_MENU_TYPE_GLOBAL, MENU_ID_GLOBAL_15, "==[from server]", ""⟩,
      some ⟨PLUGIN_MENU_TYPE_GLOBAL, MENU_ID_GLOBAL_16, "everyone (but you)", ""⟩,
      some ⟨PLUGIN_MENU_TYPE_GLOBAL, MENU_ID_GLOBAL_16, "everyone", ""⟩,
      some ⟨PLUGIN_MENU_TYPE_GLOBAL, MENU_ID_GLOBAL_26, "", ""⟩,
      some ⟨PLUGIN_MENU_TYPE_GLOBAL, MENU_ID_GLOBAL_28, "[TALKPOWER]", ""⟩,
      some ⟨PLUGIN_MENU_TYPE_GLOBAL, MENU_ID_GLOBAL_18, "Give everyone talkpower", ""⟩,
      some ⟨PLUGIN_MENU_TYPE_GLOBAL, MENU_ID_GLOBAL_19, "Take everyones talkpower", ""⟩,
      some ⟨PLUGIN_MENU_TYPE_GLOBAL, MENU_ID_GLOBAL_27, "", ""⟩,
      some ⟨PLUGIN_MENU_TYPE_GLOBAL, MENU_ID_GLOBAL_20, "[MISC]", ""⟩,
      some ⟨PLUGIN_MENU_TYPE_GLOBAL, MENU_ID_GLOBAL_21, "ACTIVATE FOR THIS SESSION", ""⟩,
      some ⟨PLUGIN_MENU_TYPE_GLOBAL, MENU_ID_GLOBAL_22, "DEACTIVATE FOR THIS SESSION", ""⟩,
      some ⟨PLUGIN_MENU_TYPE_GLOBAL, MENU_ID_GLOBAL_23, "Delete every channel", ""⟩,
      some ⟨PLUGIN_MENU_TYPE_GLOBAL, MENU_ID_GLOBAL_24, "Delete every empty channel", ""⟩,
      some ⟨PLUGIN_MENU_TYPE_CHANNEL, MENU_ID_CHANNEL_1, "[MOVING]", ""⟩,
      some ⟨PLUGIN_MENU_TYPE_CHANNEL, MENU_ID_CHANNEL_11, "=[from this channel]", ""⟩,
      some ⟨PLUGIN_MENU_TYPE_CHANNEL, MENU_ID_CHANNEL_2, "to your channel", ""⟩,
      some ⟨PLUGIN_MENU_TYPE_CHANNEL, MENU_ID_CHANNEL_12, "=[to this channel]", ""⟩,
      some ⟨PLUGIN_MENU_TYPE_CHANNEL, MENU_ID_CHANNEL_13, "your channel", ""⟩,
      some ⟨PLUGIN_MENU_TYPE_CHANNEL, MENU_ID_CHANNEL_14, "whole server", ""⟩,
      some ⟨PLUGIN_MENU_TYPE_CHANNEL, MENU_ID_CHANNEL_3, "", ""⟩,
      some ⟨PLUGIN_MENU_TYPE_CHANNEL, MENU_ID_CHANNEL_4, "[KICKING]", ""⟩,
      some ⟨PLUGIN_MENU_TYPE_CHANNEL, MENU_ID_CHANNEL_5, "=[from channel]", ""⟩,
      some ⟨PLUGIN_MENU_TYPE_CHANNEL, MENU_ID_CHANNEL_6, "everyone (but you)", ""⟩,
      some ⟨PLUGIN_MENU_TYPE_CHANNEL, MENU_ID_CHANNEL_7, "everyone", ""⟩,
      some ⟨PLUGIN_MENU_TYPE_CHANNEL, MENU_ID_CHANNEL_8, "=[from server]", ""⟩,
      some ⟨PLUGIN_MENU_TYPE_CHANNEL, MENU_ID_CHANNEL_9, "everyone (but you)", ""⟩,
      some ⟨PLUGIN_MENU_TYPE_CHANNEL, MENU_ID_CHANNEL_10, "everyone", ""⟩,
      none ]
  hostCalls :=
    [ setPluginMenuEnabled pluginID 20 1,
      setPluginMenuEnabled pluginID 21 0,
      setPluginMenuEnabled pluginID 22 0,
      setPluginMenuEnabled pluginID 23 0 ]

/-! ## The host's menu-enablement table -/

/-- The enablement flag the host keeps for each (plugin id, menu id). -/
abbrev MenuState := Option String → Int → Bool

/-- The effect of one host call on the enablement table:
`setPluginMenuEnabled(pluginID, menuID, enabled)` sets the flag of that menu
(enabled when the argument is not 0); requests leave the table alone. -/
def applyCall (m : MenuState) : HostCall → MenuState
  | setPluginMenuEnabled pluginID menuID enabled =>
      fun p i => if p = pluginID ∧ i = menuID then decide (enabled ≠ 0) else m p i
  | _ => m

/-- The enablement table after a sequence of host calls. -/
def applyCalls (m : MenuState) (calls : List HostCall) : MenuState :=
  calls.foldl applyCall m

/-- One invocation of `ts3plugin_onMenuItemEvent`: the snapshot the host is in
when it fires, and the arguments of the call. -/
structure MenuEvent where
  host : Host
  serverConnectionHandlerID : Nat
  type : PluginMenuType
  menuItemID : Int
  selectedItemID : Nat

/-- The enablement table after the handler has run on each event in turn. -/
def runEvents (pluginID : Option String) (m : MenuState) (events : List MenuEvent) :
    MenuState :=
  events.foldl (fun s e => applyCalls s
    (ts3plugin_onMenuItemEvent e.host pluginID e.serverConnectionHandlerID e.type
      e.menuItemID e.selectedItemID)) m

/-! ## Vocabulary of the statements -/

/-- A call issued fire-and-forget: a null return code, and an empty string
argument where the call has one (move, kick from channel, kick from server).
`setPluginMenuEnabled` has neither parameter. -/
def HostCall.fireAndForget : HostCall → Prop
  | requestClientMove _ _ _ s rc => s = "" ∧ rc = none
  | requestClientKickFromChannel _ _ s rc => s = "" ∧ rc = none
  | requestClientKickFromServer _ _ s rc => s = "" ∧ rc = none
  | requestClientSetIsTalker _ _ _ rc => rc = none
  | requestChannelDelete _ _ _ rc => rc = none
  | setPluginMenuEnabled _ _ _ => True

/-- The call is one of the five request kinds (not a menu-enablement call). -/
def HostCall.isRequest : HostCall → Prop
  | setPluginMenuEnabled _ _ _ => False
  | _ => True

/-- The client a request is aimed at, if it is aimed at a client. -/
def HostCall.targetClient : HostCall → Option Nat
  | requestClientMove _ c _ _ _ => some c
  | requestClientKickFromChannel _ c _ _ => some c
  | requestClientKickFromServer _ c _ _ => some c
  | requestClientSetIsTalker _ c _ _ => some c
  | _ => none

/-- The enablement table once `ts3plugin_initMenus` has run on a table `m0` and
the handler has then run on each event in turn. -/
def sessionState (pluginID : Option String) (m0 : MenuState) (events : List MenuEvent) :
    MenuState :=
  runEvents pluginID (applyCalls m0 (ts3plugin_initMenus pluginID).hostCalls) events

/-- The consistent states of the activate/deactivate pair for one plugin: exactly
one of the menus 20 and 21 is enabled, and the menus 22 and 23 are enabled exactly
when menu 21 is. -/
def MenuConsistent (pluginID : Option String) (m : MenuState) : Prop :=
  ((m pluginID 20 = true ∧ m pluginID 21 = false)
    ∨ (m pluginID 20 = false ∧ m pluginID 21 = true))
  ∧ (m pluginID 22 = true ↔ m pluginID 21 = true)
  ∧ (m pluginID 23 = true ↔ m pluginID 21 = true)

/-- A request issued fire-and-forget. -/
def HostCall.plainRequest (c : HostCall) : Prop :=
  c.isRequest ∧ c.fireAndForget

/-! ## The counters of `ts3plugin_initMenus` -/

/-- The value of the counter `n` when `assert(n == sz)` is reached: `n` starts at
0 and is incremented once per slot written through `(*menuItems)[n++] = ...`. -/
def InitMenus.n (r : InitMenus) : Nat :=
  r.menuItems.length

/-- The condition of the `assert` in `END_CREATE_MENUS`. -/
def InitMenus.assertion (r : InitMenus) : Bool :=
  r.n == r.sz

/-- The array indices written, in order: the k-th write goes to index k. -/
def InitMenus.writtenIndices (r : InitMenus) : List Nat :=
  List.range r.n

/-- The (type, id) pairs of the descriptors created, in order of creation. -/
def InitMenus.descriptorKeys (r : InitMenus) : List (PluginMenuType × Int) :=
  r.menuItems.filterMap (fun slot => slot.map (fun item => (item.type, item.id)))

/-- The menu texts registered under a (type, id) pair, in order of creation. -/
def InitMenus.textsOf (r : InitMenus) (type : PluginMenuType) (id : Int) : List String :=
  r.menuItems.filterMap (fun slot =>
    slot.bind (fun item => if item.type = type ∧ item.id = id then some item.text else none))

/-! ## The plugin-identifier buffer -/

/-- The memory the plugin manages for its identifier.  Every `malloc` of
`ts3plugin_registerPluginID` creates a new buffer, named by its index in
`buffers` (allocation order); `freed` lists the buffers passed to `free`, in
order; `pluginID` is the file-level pointer, `none` when it is NULL.  `malloc` is
taken to succeed (the source does not check it). -/
structure PluginMemory where
  pluginID : Option Nat
  buffers : List String
  freed : List Nat
  deriving DecidableEq, Repr

/-- The function `ts3plugin_registerPluginID` (plugin.c, lines 179-184): it
allocates a buffer of `strlen(id) + 1` bytes, stores its address in `pluginID`
(whatever `pluginID` held before) and copies `id` into it. -/
def ts3plugin_registerPluginID (s : PluginMemory) (id : String) : PluginMemory :=
  { pluginID := some s.buffers.length, buffers := s.buffers ++ [id], freed := s.freed }

/-- The function `ts3plugin_shutdown` (plugin.c, lines 135-150):
`if(pluginID) { free(pluginID); pluginID = NULL; }`. -/
def ts3plugin_shutdown (s : PluginMemory) : PluginMemory :=
  match s.pluginID with
  | some b => { pluginID := none, buffers := s.buffers, freed := s.freed ++ [b] }
  | none => s

/-- One call of the host into the identifier lifecycle. -/
inductive LifecycleCall where
  | registerPluginID (id : String)
  | shutdown
  deriving DecidableEq, Repr

/-- The effect of one lifecycle call. -/
def LifecycleCall.apply (s : PluginMemory) : LifecycleCall → PluginMemory
  | LifecycleCall.registerPluginID id => ts3plugin_registerPluginID s id
  | LifecycleCall.shutdown => ts3plugin_shutdown s

/-- A snapshot of one server: clients 2, 3, 4, 5 with the actor 3 in second
position; clients 2, 3, 5 sit in channel 7, client 4 in channel 9; channels 7, 8,
9, of which 8 is empty. -/
def exampleHost : Host where
  getClientList := fun _ => [2, 3, 4, 5, 0]
  getClientID := fun _ => 3
  getChannelOfClient := fun _ c => if c = 4 then 9 else 7
  getChannelClientList := fun _ ch =>
    if ch = 7 then [2, 3, 5, 0] else if ch = 9 then [4, 0] else [0]
  getChannelList := fun _ => [7, 8, 9, 0]

/-- A snapshot in which the actor (client 1, in channel 9) is not in channel 5,
whose only client is 2. -/
def strangerHost : Host where
  getClientList := fun _ => [1, 2, 0]
  getClientID := fun _ => 1
  getChannelOfClient := fun _ c => if c = 2 then 5 else 9
  getChannelClientList := fun _ ch =>
    if ch = 5 then [2, 0] else if ch = 9 then [1, 0] else [0]
  getChannelList := fun _ => [5, 9, 0]


/-! ## Lemmas on the loops -/

/-- On a zero-terminated array whose entries are all non-zero, a loop whose body
issues one call for the entries that pass a test issues the calls of the filtered
entries, in order. -/
theorem forEntries_filter (l : List Nat) (p : Nat → Prop) [DecidablePred p]
    (f : Nat → HostCall) (hz : 0 ∉ l) :
    forEntries (l ++ [0]) (fun x => if p x then [f x] else [])
      = (l.filter (fun x => decide (p x))).map f := by
  induction l with
  | nil => simp [forEntries]
  | cons a t ih =>
    have ha : a ≠ 0 := fun e => hz (by simp [e])
    have ht : 0 ∉ t := fun e => hz (by simp [e])
    by_cases hp : p a <;> simp [forEntries, ha, hp, ih ht]

/-- The same for a body written with the test negated, as the simplifier
presents the `!=` tests of the source. -/
theorem forEntries_filter_not (l : List Nat) (p : Nat → Prop) [DecidablePred p]
    (f : Nat → HostCall) (hz : 0 ∉ l) :
    forEntries (l ++ [0]) (fun x => if p x then [] else [f x])
      = (l.filter (fun x => !decide (p x))).map f := by
  induction l with
  | nil => simp [forEntries]
  | cons a t ih =>
    have ha : a ≠ 0 := fun e => hz (by simp [e])
    have ht : 0 ∉ t := fun e => hz (by simp [e])
    by_cases hp : p a <;> simp [forEntries, ha, hp, ih ht]

/-- On a zero-terminated array whose entries are all non-zero, a loop whose body
issues one call per entry issues one call per entry, in order. -/
theorem forEntries_map (l : List Nat) (f : Nat → HostCall) (hz : 0 ∉ l) :
    forEntries (l ++ [0]) (fun x => [f x]) = l.map f := by
  induction l with
  | nil => simp [forEntries]
  | cons a t ih =>
    have ha : a ≠ 0 := fun e => hz (by simp [e])
    have ht : 0 ∉ t := fun e => hz (by simp [e])
    simp [forEntries, ha, ih ht]

/-- Whatever holds of every call a loop body can issue holds of every call of
the loop, on any buffer. -/
theorem forEntries_forall (P : HostCall → Prop) (body : Nat → List HostCall)
    (hbody : ∀ x, ∀ c ∈ body x, P c) (L : List Nat) :
    ∀ c ∈ forEntries L body, P c := by
  induction L with
  | nil => simp [forEntries]
  | cons a t ih =>
    intro c hc
    unfold forEntries at hc
    split_ifs at hc with h0
    · simp at hc
    · rcases List.mem_append.mp hc with h1 | h1
      · exact hbody a c h1
      · exact ih c h1

/-! ## The filter rules of the bulk actions -/

/-- C2. Channel-mates excluding self: on a zero-terminated client list, a GLOBAL
event with menu id MENU_ID_GLOBAL_6 issues exactly the kick-from-channel requests
(empty message, null return code) of the list entries that are in the actor's
channel and are not the actor, in list order, and no other call. -/
theorem global6_kicks_channel_mates_excluding_self (h : Host) (pluginID : Option String)
    (sch selectedItemID : Nat) (clients : List Nat)
    (hz : 0 ∉ clients) (hlist : h.getClientList sch = clients ++ [0]) :
    ts3plugin_onMenuItemEvent h pluginID sch PLUGIN_MENU_TYPE_GLOBAL MENU_ID_GLOBAL_6
        selectedItemID
      = (clients.filter (fun c => decide
            (h.getChannelOfClient sch c = h.getChannelOfClient sch (h.getClientID sch)
              ∧ c ≠ h.getClientID sch))).map
          (fun c => requestClientKickFromChannel sch c "" none) := by
  simp [ts3plugin_onMenuItemEvent, globalSwitch, channelSwitch, hlist,
    forEntries_filter _ _ _ hz]

/-- Witness of C2 on the example snapshot: the actor 3 sits second in the list;
its channel-mates 2 and 5 are kicked, the actor and client 4 are not. -/
theorem global6_kicks_channel_mates_excluding_self_witness :
    0 ∉ [2, 3, 4, 5] ∧ exampleHost.getClientList 1 = [2, 3, 4, 5] ++ [0] ∧
    ts3plugin_onMenuItemEvent exampleHost none 1 PLUGIN_MENU_TYPE_GLOBAL MENU_ID_GLOBAL_6 0
      = [requestClientKickFromChannel 1 2 "" none, requestClientKickFromChannel 1 5 "" none] :=
  ⟨by decide, rfl,
   (global6_kicks_channel_mates_excluding_self exampleHost none 1 0 [2, 3, 4, 5]
      (by decide) rfl).trans (by decide)⟩

/-- C4. Move all clients into own channel: on a zero-terminated client list, a
GLOBAL event with menu id MENU_ID_GLOBAL_2 issues exactly one move request, with
the actor's channel as destination, for each list entry whose channel differs from
the actor's channel, in list order, and no other call; no call targets the actor. -/
theorem global2_moves_others_into_own_channel (h : Host) (pluginID : Option String)
    (sch selectedItemID : Nat) (clients : List Nat)
    (hz : 0 ∉ clients) (hlist : h.getClientList sch = clients ++ [0]) :
    ts3plugin_onMenuItemEvent h pluginID sch PLUGIN_MENU_TYPE_GLOBAL MENU_ID_GLOBAL_2
        selectedItemID
      = (clients.filter (fun c => decide
            (h.getChannelOfClient sch c ≠ h.getChannelOfClient sch (h.getClientID sch)))).map
          (fun c => requestClientMove sch c
            (h.getChannelOfClient sch (h.getClientID sch)) "" none)
    ∧ ∀ c ∈ ts3plugin_onMenuItemEvent h pluginID sch PLUGIN_MENU_TYPE_GLOBAL
          MENU_ID_GLOBAL_2 selectedItemID,
        c.targetClient ≠ some (h.getClientID sch) := by
  have key : ts3plugin_onMenuItemEvent h pluginID sch PLUGIN_MENU_TYPE_GLOBAL
        MENU_ID_GLOBAL_2 selectedItemID
      = (clients.filter (fun c => decide
            (h.getChannelOfClient sch c ≠ h.getChannelOfClient sch (h.getClientID sch)))).map
          (fun c => requestClientMove sch c
            (h.getChannelOfClient sch (h.getClientID sch)) "" none) := by
    simp [ts3plugin_onMenuItemEvent, globalSwitch, channelSwitch, hlist,
      forEntries_filter_not _ _ _ hz]
  refine ⟨key, ?_⟩
  intro c hc
  rw [key] at hc
  obtain ⟨x, hx, rfl⟩ := List.mem_map.mp hc
  have hx2 := (List.mem_filter.mp hx).2
  simp only [decide_eq_true_eq] at hx2
  intro heq
  simp only [HostCall.targetClient, Option.some.injEq] at heq
  exact hx2 (by rw [heq])

/-- Witness of C4 on the example snapshot: only client 4, who sits in channel 9,
is moved, into the actor's channel 7. -/
theorem global2_moves_others_into_own_channel_witness :
    0 ∉ [2, 3, 4, 5] ∧ exampleHost.getClientList 1 = [2, 3, 4, 5] ++ [0] ∧
    ts3plugin_onMenuItemEvent exampleHost none 1 PLUGIN_MENU_TYPE_GLOBAL MENU_ID_GLOBAL_2 0
      = [requestClientMove 1 4 7 "" none] :=
  ⟨by decide, rfl,
   (global2_moves_others_into_own_channel exampleHost none 1 0 [2, 3, 4, 5]
      (by decide) rfl).1.trans (by decide)⟩

/-- C5. All clients excluding self: on a zero-terminated client list, a GLOBAL
event with menu id MENU_ID_GLOBAL_13 issues exactly one kick-from-channel request
for each list entry other than the actor, in list order; the calls do not depend
on the client-to-channel map, and no call targets the actor. -/
theorem global13_kicks_all_clients_excluding_self (h : Host) (pluginID : Option String)
    (sch selectedItemID : Nat) (clients : List Nat)
    (hz : 0 ∉ clients) (hlist : h.getClientList sch = clients ++ [0]) :
    ts3plugin_onMenuItemEvent h pluginID sch PLUGIN_MENU_TYPE_GLOBAL MENU_ID_GLOBAL_13
        selectedItemID
      = (clients.filter (fun c => decide (c ≠ h.getClientID sch))).map
          (fun c => requestClientKickFromChannel sch c "" none)
    ∧ (∀ channelMap : Nat → Nat → Nat,
        ts3plugin_onMenuItemEvent { h with getChannelOfClient := channelMap } pluginID sch
            PLUGIN_MENU_TYPE_GLOBAL MENU_ID_GLOBAL_13 selectedItemID
          = ts3plugin_onMenuItemEvent h pluginID sch PLUGIN_MENU_TYPE_GLOBAL
              MENU_ID_GLOBAL_13 selectedItemID)
    ∧ ∀ c ∈ ts3plugin_onMenuItemEvent h pluginID sch PLUGIN_MENU_TYPE_GLOBAL
          MENU_ID_GLOBAL_13 selectedItemID,
        c.targetClient ≠ some (h.getClientID sch) := by
  have key : ts3plugin_onMenuItemEvent h pluginID sch PLUGIN_MENU_TYPE_GLOBAL
        MENU_ID_GLOBAL_13 selectedItemID
      = (clients.filter (fun c => decide (c ≠ h.getClientID sch))).map
          (fun c => requestClientKickFromChannel sch c "" none) := by
    simp [ts3plugin_onMenuItemEvent, globalSwitch, channelSwitch, hlist,
      forEntries_filter_not _ _ _ hz]
  refine ⟨key, ?_, ?_⟩
  · intro channelMap
    simp [ts3plugin_onMenuItemEvent, globalSwitch, channelSwitch]
  · intro c hc
    rw [key] at hc
    obtain ⟨x, hx, rfl⟩ := List.mem_map.mp hc
    have hx2 := (List.mem_filter.mp hx).2
    simp only [decide_eq_true_eq] at hx2
    simpa [HostCall.targetClient] using hx2

/-- Witness of C5 on the example snapshot: clients 2, 4 and 5 are kicked from
their channels, whichever channel they are in; the actor 3 is skipped. -/
theorem global13_kicks_all_clients_excluding_self_witness :
    0 ∉ [2, 3, 4, 5] ∧ exampleHost.getClientList 1 = [2, 3, 4, 5] ++ [0] ∧
    ts3plugin_onMenuItemEvent exampleHost none 1 PLUGIN_MENU_TYPE_GLOBAL MENU_ID_GLOBAL_13 0
      = [requestClientKickFromChannel 1 2 "" none, requestClientKickFromChannel 1 4 "" none,
         requestClientKickFromChannel 1 5 "" none] :=
  ⟨by decide, rfl,
   (global13_kicks_all_clients_excluding_self exampleHost none 1 0 [2, 3, 4, 5]
      (by decide) rfl).1.trans (by decide)⟩

/-- C6. All channels: on a zero-terminated channel list, a GLOBAL event with menu
id MENU_ID_GLOBAL_23 issues exactly one channel-delete request with force = 1 per
list entry, in list order, and no other call; there are as many requests as the
list has entries. -/
theorem global23_force_deletes_every_channel (h : Host) (pluginID : Option String)
    (sch selectedItemID : Nat) (channels : List Nat)
    (hz : 0 ∉ channels) (hlist : h.getChannelList sch = channels ++ [0]) :
    ts3plugin_onMenuItemEvent h pluginID sch PLUGIN_MENU_TYPE_GLOBAL MENU_ID_GLOBAL_23
        selectedItemID
      = channels.map (fun ch => requestChannelDelete sch ch 1 none)
    ∧ (ts3plugin_onMenuItemEvent h pluginID sch PLUGIN_MENU_TYPE_GLOBAL MENU_ID_GLOBAL_23
        selectedItemID).length = channels.length := by
  have key : ts3plugin_onMenuItemEvent h pluginID sch PLUGIN_MENU_TYPE_GLOBAL
        MENU_ID_GLOBAL_23 selectedItemID
      = channels.map (fun ch => requestChannelDelete sch ch 1 none) := by
    simp [ts3plugin_onMenuItemEvent, globalSwitch, channelSwitch, hlist,
      forEntries_map _ _ hz]
  exact ⟨key, by rw [key, List.length_map]⟩

/-- Witness of C6 on the example snapshot: channels 7, 8 and 9 each get one
forced delete request. -/
theorem global23_force_deletes_every_channel_witness :
    0 ∉ [7, 8, 9] ∧ exampleHost.getChannelList 1 = [7, 8, 9] ++ [0] ∧
    ts3plugin_onMenuItemEvent exampleHost none 1 PLUGIN_MENU_TYPE_GLOBAL MENU_ID_GLOBAL_23 0
      = [requestChannelDelete 1 7 1 none, requestChannelDelete 1 8 1 none,
         requestChannelDelete 1 9 1 none] :=
  ⟨by decide, rfl,
   (global23_force_deletes_every_channel exampleHost none 1 0 [7, 8, 9]
      (by decide) rfl).1.trans (by decide)⟩

/-- C8. Different channel than target: on a zero-terminated server client list,
a CHANNEL event with menu id MENU_ID_CHANNEL_14 issues exactly one move request,
with the selected channel as destination, for each list entry whose channel
differs from the selected channel, in list order, and no other call. -/
theorem channel14_moves_whole_server_to_selected (h : Host) (pluginID : Option String)
    (sch selectedItemID : Nat) (clients : List Nat)
    (hz : 0 ∉ clients) (hlist : h.getClientList sch = clients ++ [0]) :
    ts3plugin_onMenuItemEvent h pluginID sch PLUGIN_MENU_TYPE_CHANNEL MENU_ID_CHANNEL_14
        selectedItemID
      = (clients.filter (fun c => decide (h.getChannelOfClient sch c ≠ selectedItemID))).map
          (fun c => requestClientMove sch c selectedItemID "" none) := by
  simp [ts3plugin_onMenuItemEvent, channelSwitch, hlist, forEntries_filter_not _ _ _ hz]

/-- Witness of C8 on the example snapshot with channel 9 selected: clients 2, 3
and 5 are moved to channel 9; client 4, already there, is not. -/
theorem channel14_moves_whole_server_to_selected_witness :
    0 ∉ [2, 3, 4, 5] ∧ exampleHost.getClientList 1 = [2, 3, 4, 5] ++ [0] ∧
    ts3plugin_onMenuItemEvent exampleHost none 1 PLUGIN_MENU_TYPE_CHANNEL MENU_ID_CHANNEL_14 9
      = [requestClientMove 1 2 9 "" none, requestClientMove 1 3 9 "" none,
         requestClientMove 1 5 9 "" none] :=
  ⟨by decide, rfl,
   (channel14_moves_whole_server_to_selected exampleHost none 1 9 [2, 3, 4, 5]
      (by decide) rfl).trans (by decide)⟩

/-- C9. Talk-power toggling: on a zero-terminated client list, the GLOBAL events
with menu ids MENU_ID_GLOBAL_18 and MENU_ID_GLOBAL_19 issue one set-is-talker
request for each list entry whose channel is the actor's channel, in list order,
and no other call: the same targets for both, with flag 1 for GLOBAL_18 and flag 0
for GLOBAL_19.  An actor that is in the list is among the targets. -/
theorem global18_19_talkpower_same_targets (h : Host) (pluginID : Option String)
    (sch selectedItemID : Nat) (clients : List Nat)
    (hz : 0 ∉ clients) (hlist : h.getClientList sch = clients ++ [0]) :
    ts3plugin_onMenuItemEvent h pluginID sch PLUGIN_MENU_TYPE_GLOBAL MENU_ID_GLOBAL_18
        selectedItemID
      = (clients.filter (fun c => decide
            (h.getChannelOfClient sch c = h.getChannelOfClient sch (h.getClientID sch)))).map
          (fun c => requestClientSetIsTalker sch c 1 none)
    ∧ ts3plugin_onMenuItemEvent h pluginID sch PLUGIN_MENU_TYPE_GLOBAL MENU_ID_GLOBAL_19
        selectedItemID
      = (clients.filter (fun c => decide
            (h.getChannelOfClient sch c = h.getChannelOfClient sch (h.getClientID sch)))).map
          (fun c => requestClientSetIsTalker sch c 0 none)
    ∧ (h.getClientID sch ∈ clients →
        h.getClientID sch ∈ clients.filter (fun c => decide
            (h.getChannelOfClient sch c = h.getChannelOfClient sch (h.getClientID sch)))) := by
  refine ⟨?_, ?_, ?_⟩
  · simp [ts3plugin_onMenuItemEvent, globalSwitch, channelSwitch, hlist,
      forEntries_filter _ _ _ hz]
  · simp [ts3plugin_onMenuItemEvent, globalSwitch, channelSwitch, hlist,
      forEntries_filter _ _ _ hz]
  · intro hmem
    exact List.mem_filter.mpr ⟨hmem, by simp⟩

/-- Witness of C9 on the example snapshot: clients 2, 3 (the actor) and 5 of
channel 7 are given talk power by GLOBAL_18 and lose it by GLOBAL_19. -/
theorem global18_19_talkpower_same_targets_witness :
    0 ∉ [2, 3, 4, 5] ∧ exampleHost.getClientList 1 = [2, 3, 4, 5] ++ [0] ∧
    ts3plugin_onMenuItemEvent exampleHost none 1 PLUGIN_MENU_TYPE_GLOBAL MENU_ID_GLOBAL_18 0
      = [requestClientSetIsTalker 1 2 1 none, requestClientSetIsTalker 1 3 1 none,
         requestClientSetIsTalker 1 5 1 none] ∧
    ts3plugin_onMenuItemEvent exampleHost none 1 PLUGIN_MENU_TYPE_GLOBAL MENU_ID_GLOBAL_19 0
      = [requestClientSetIsTalker 1 2 0 none, requestClientSetIsTalker 1 3 0 none,
         requestClientSetIsTalker 1 5 0 none] :=
  ⟨by decide, rfl,
   (global18_19_talkpower_same_targets exampleHost none 1 0 [2, 3, 4, 5]
      (by decide) rfl).1.trans (by decide),
   (global18_19_talkpower_same_targets exampleHost none 1 0 [2, 3, 4, 5]
      (by decide) rfl).2.1.trans (by decide)⟩

/-! ## Delete every empty channel -/

/-- C7, as stated, fails: on the example snapshot channel 7 holds the clients 2, 3
and 5, and the GLOBAL event with menu id MENU_ID_GLOBAL_24 still issues a delete
request for it (and for channel 9, which holds client 4). -/
theorem global24_requests_delete_of_occupied_channel :
    exampleHost.getChannelList 1 = [7, 8, 9, 0]
    ∧ exampleHost.getChannelClientList 1 7 = [2, 3, 5, 0]
    ∧ ts3plugin_onMenuItemEvent exampleHost none 1 PLUGIN_MENU_TYPE_GLOBAL MENU_ID_GLOBAL_24 0
        = [requestChannelDelete 1 7 0 none, requestChannelDelete 1 8 0 none,
           requestChannelDelete 1 9 0 none] := by
  decide

/-- C7, amended. On a zero-terminated channel list, a GLOBAL event with menu id
MENU_ID_GLOBAL_24 issues exactly one channel-delete request with force = 0 per
list entry, in list order, and no other call; the calls do not depend on the
client lists of the channels (the handler never reads them on this path). -/
theorem global24_unforced_delete_of_every_channel (h : Host) (pluginID : Option String)
    (sch selectedItemID : Nat) (channels : List Nat)
    (hz : 0 ∉ channels) (hlist : h.getChannelList sch = channels ++ [0]) :
    ts3plugin_onMenuItemEvent h pluginID sch PLUGIN_MENU_TYPE_GLOBAL MENU_ID_GLOBAL_24
        selectedItemID
      = channels.map (fun ch => requestChannelDelete sch ch 0 none)
    ∧ ∀ (clientLists : Nat → Nat → List Nat) (channelMap : Nat → Nat → Nat),
        ts3plugin_onMenuItemEvent
            { h with getChannelClientList := clientLists, getChannelOfClient := channelMap }
            pluginID sch PLUGIN_MENU_TYPE_GLOBAL MENU_ID_GLOBAL_24 selectedItemID
          = ts3plugin_onMenuItemEvent h pluginID sch PLUGIN_MENU_TYPE_GLOBAL
              MENU_ID_GLOBAL_24 selectedItemID := by
  refine ⟨?_, ?_⟩
  · simp [ts3plugin_onMenuItemEvent, globalSwitch, channelSwitch, hlist,
      forEntries_map _ _ hz]
  · intro clientLists channelMap
    simp [ts3plugin_onMenuItemEvent, globalSwitch, channelSwitch]

/-- Witness of the amended C7 on the example snapshot: channels 7, 8 and 9 each
get one unforced delete request. -/
theorem global24_unforced_delete_of_every_channel_witness :
    0 ∉ [7, 8, 9] ∧ exampleHost.getChannelList 1 = [7, 8, 9] ++ [0] ∧
    ts3plugin_onMenuItemEvent exampleHost none 1 PLUGIN_MENU_TYPE_GLOBAL MENU_ID_GLOBAL_24 0
      = [requestChannelDelete 1 7 0 none, requestChannelDelete 1 8 0 none,
         requestChannelDelete 1 9 0 none] :=
  ⟨by decide, rfl,
   (global24_unforced_delete_of_every_channel exampleHost none 1 0 [7, 8, 9]
      (by decide) rfl).1.trans (by decide)⟩

/-! ## Kick everyone of the selected channel from the server -/

/-- A loop that skips one entry `a` of a duplicate-free list and is followed by
the call for `a` issues the calls of the whole list, up to order. -/
theorem filter_ne_map_append_perm (f : Nat → HostCall) (a : Nat) (l : List Nat)
    (hnd : l.Nodup) (ha : a ∈ l) :
    List.Perm ((l.filter (fun c => decide (c ≠ a))).map f ++ [f a]) (l.map f) := by
  induction l with
  | nil => simp at ha
  | cons b t ih =>
    have hbt : b ∉ t := (List.nodup_cons.mp hnd).1
    have htn : t.Nodup := (List.nodup_cons.mp hnd).2
    by_cases hb : b = a
    · subst hb
      have hfil : t.filter (fun c => decide (c ≠ b)) = t := by
        apply List.filter_eq_self.mpr
        intro x hx
        have : x ≠ b := fun e => hbt (e ▸ hx)
        simp [this]
      simp only [List.filter_cons, ne_eq, not_true_eq_false, decide_False, List.map_cons,
        hfil]
      simp
    · have hat : a ∈ t := by
        rcases List.mem_cons.mp ha with h1 | h1
        · exact absurd h1.symm hb
        · exact h1
      have hdec : decide (b ≠ a) = true := by simpa using hb
      simp only [List.filter_cons, hdec, if_true, List.map_cons, List.cons_append]
      exact List.Perm.cons _ (ih htn hat)

/-- Where the actor is in the selected channel, the claim of C3 holds of the code:
on a zero-terminated, duplicate-free client list of the selected channel that
contains the actor, the CHANNEL event with menu id MENU_ID_CHANNEL_10 issues the
kick-from-server requests of the list entries, each once, the actor last. -/
theorem channel10_exactly_once_when_actor_in_channel (h : Host) (pluginID : Option String)
    (sch selectedItemID : Nat) (clients : List Nat)
    (hz : 0 ∉ clients) (hnd : clients.Nodup)
    (hlist : h.getChannelClientList sch selectedItemID = clients ++ [0])
    (hin : h.getClientID sch ∈ clients) :
    ts3plugin_onMenuItemEvent h pluginID sch PLUGIN_MENU_TYPE_CHANNEL MENU_ID_CHANNEL_10
        selectedItemID
      = (clients.filter (fun c => decide (c ≠ h.getClientID sch))).map
            (fun c => requestClientKickFromServer sch c "" none)
          ++ [requestClientKickFromServer sch (h.getClientID sch) "" none]
    ∧ List.Perm
        (ts3plugin_onMenuItemEvent h pluginID sch PLUGIN_MENU_TYPE_CHANNEL MENU_ID_CHANNEL_10
          selectedItemID)
        (clients.map (fun c => requestClientKickFromServer sch c "" none)) := by
  have key : ts3plugin_onMenuItemEvent h pluginID sch PLUGIN_MENU_TYPE_CHANNEL
        MENU_ID_CHANNEL_10 selectedItemID
      = (clients.filter (fun c => decide (c ≠ h.getClientID sch))).map
            (fun c => requestClientKickFromServer sch c "" none)
          ++ [requestClientKickFromServer sch (h.getClientID sch) "" none] := by
    simp [ts3plugin_onMenuItemEvent, channelSwitch, hlist, forEntries_filter_not _ _ _ hz]
  refine ⟨key, ?_⟩
  rw [key]
  exact filter_ne_map_append_perm _ _ _ hnd hin

/-- The in-channel case on the example snapshot with the actor's channel 7
selected: clients 2 and 5 are kicked from the server, then the actor 3. -/
theorem channel10_exactly_once_when_actor_in_channel_witness :
    0 ∉ [2, 3, 5] ∧ [2, 3, 5].Nodup
    ∧ exampleHost.getChannelClientList 1 7 = [2, 3, 5] ++ [0]
    ∧ exampleHost.getClientID 1 ∈ [2, 3, 5]
    ∧ ts3plugin_onMenuItemEvent exampleHost none 1 PLUGIN_MENU_TYPE_CHANNEL
          MENU_ID_CHANNEL_10 7
        = [requestClientKickFromServer 1 2 "" none, requestClientKickFromServer 1 5 "" none,
           requestClientKickFromServer 1 3 "" none] :=
  ⟨by decide, by decide, rfl, by decide,
   (channel10_exactly_once_when_actor_in_channel exampleHost none 1 7 [2, 3, 5]
      (by decide) (by decide) rfl (by decide)).1.trans (by decide)⟩

/-- C3, the code at the failing input: the actor (client 1) is not in the selected
channel 5, whose client list is the duplicate-free [2]; the CHANNEL event with
menu id MENU_ID_CHANNEL_10 kicks client 2 from the server and then also the
actor, who is not in that list. -/
theorem channel10_kicks_actor_outside_selected_channel :
    strangerHost.getChannelClientList 1 5 = [2] ++ [0]
    ∧ strangerHost.getClientID 1 = 1
    ∧ 1 ∉ [2]
    ∧ ts3plugin_onMenuItemEvent strangerHost none 1 PLUGIN_MENU_TYPE_CHANNEL
          MENU_ID_CHANNEL_10 5
        = [requestClientKickFromServer 1 2 "" none, requestClientKickFromServer 1 1 "" none] := by
  decide

/-! ## The shape of the handler's output -/

/-- Every body of the handler's loops issues plain requests only, hence so does
each loop. -/
theorem forEntries_plainRequest (body : Nat → List HostCall)
    (hbody : ∀ x, ∀ c ∈ body x, c.plainRequest) (L : List Nat) :
    ∀ c ∈ forEntries L body, c.plainRequest :=
  forEntries_forall HostCall.plainRequest body hbody L

theorem plainRequest_nil : ∀ c ∈ ([] : List HostCall), c.plainRequest := by
  intro c hc
  simp at hc

theorem plainRequest_single (k : HostCall) (hk : k.plainRequest) :
    ∀ c ∈ [k], c.plainRequest := by
  intro c hc
  rw [List.mem_singleton.mp hc]
  exact hk

theorem plainRequest_ite (p : Prop) [Decidable p] (k : HostCall) (hk : k.plainRequest) :
    ∀ c ∈ (if p then [k] else []), c.plainRequest := by
  intro c hc
  split_ifs at hc
  · exact plainRequest_single k hk c hc
  · simp at hc

theorem plainRequest_append (A B : List HostCall) (hA : ∀ c ∈ A, c.plainRequest)
    (hB : ∀ c ∈ B, c.plainRequest) : ∀ c ∈ A ++ B, c.plainRequest := by
  intro c hc
  rcases List.mem_append.mp hc with h1 | h1
  · exact hA c h1
  · exact hB c h1

theorem plainRequest_branch (p : Prop) [Decidable p] (A B : List HostCall)
    (hA : p → ∀ c ∈ A, c.plainRequest) (hB : ¬p → ∀ c ∈ B, c.plainRequest) :
    ∀ c ∈ (if p then A else B), c.plainRequest := by
  by_cases hp : p
  · rw [if_pos hp]
    exact hA hp
  · rw [if_neg hp]
    exact hB hp

/-- Every call of the CHANNEL switch is a request with a null return code and an
empty string argument. -/
theorem channelSwitch_plainRequest (h : Host) (sch : Nat) (menuItemID : Int) (sel : Nat) :
    ∀ c ∈ channelSwitch h sch menuItemID sel, c.plainRequest := by
  unfold channelSwitch
  repeat' (refine plainRequest_branch _ _ _ (fun hp => ?_) (fun _ => ?_))
  all_goals
    first
    | exact plainRequest_nil
    | exact forEntries_plainRequest _ (fun _ => plainRequest_single _ (by exact ⟨trivial, rfl, rfl⟩)) _
    | exact forEntries_plainRequest _ (fun _ => plainRequest_single _ (by exact ⟨trivial, rfl⟩)) _
    | exact forEntries_plainRequest _ (fun _ => plainRequest_ite _ _ (by exact ⟨trivial, rfl, rfl⟩)) _
    | exact forEntries_plainRequest _ (fun _ => plainRequest_ite _ _ (by exact ⟨trivial, rfl⟩)) _
    | exact plainRequest_append _ _
        (forEntries_plainRequest _ (fun _ => plainRequest_ite _ _ (by exact ⟨trivial, rfl, rfl⟩)) _)
        (plainRequest_single _ (by exact ⟨trivial, rfl, rfl⟩))

/-- The calls of the activate branch (GLOBAL, menu id 20). -/
theorem globalSwitch_activate (h : Host) (pluginID : Option String) (sch : Nat) :
    globalSwitch h pluginID sch MENU_ID_GLOBAL_21
      = [setPluginMenuEnabled pluginID 21 1, setPluginMenuEnabled pluginID 22 1,
         setPluginMenuEnabled pluginID 23 1, setPluginMenuEnabled pluginID 20 0] := by
  rfl

/-- The calls of the deactivate branch (GLOBAL, menu id 21). -/
theorem globalSwitch_deactivate (h : Host) (pluginID : Option String) (sch : Nat) :
    globalSwitch h pluginID sch MENU_ID_GLOBAL_22
      = [setPluginMenuEnabled pluginID 21 0, setPluginMenuEnabled pluginID 22 0,
         setPluginMenuEnabled pluginID 23 0, setPluginMenuEnabled pluginID 20 1] := by
  rfl

/-- Every call of the GLOBAL switch outside the activate and deactivate branches
is a request with a null return code and an empty string argument. -/
theorem globalSwitch_plainRequest (h : Host) (pluginID : Option String) (sch : Nat)
    (menuItemID : Int) (h20 : menuItemID ≠ MENU_ID_GLOBAL_21)
    (h21 : menuItemID ≠ MENU_ID_GLOBAL_22) :
    ∀ c ∈ globalSwitch h pluginID sch menuItemID, c.plainRequest := by
  unfold globalSwitch
  repeat' (refine plainRequest_branch _ _ _ (fun hp => ?_) (fun _ => ?_))
  all_goals
    first
    | exact absurd hp h20
    | exact absurd hp h21
    | exact plainRequest_nil
    | exact forEntries_plainRequest _ (fun _ => plainRequest_single _ (by exact ⟨trivial, rfl, rfl⟩)) _
    | exact forEntries_plainRequest _ (fun _ => plainRequest_single _ (by exact ⟨trivial, rfl⟩)) _
    | exact forEntries_plainRequest _ (fun _ => plainRequest_ite _ _ (by exact ⟨trivial, rfl, rfl⟩)) _
    | exact forEntries_plainRequest _ (fun _ => plainRequest_ite _ _ (by exact ⟨trivial, rfl⟩)) _
    | exact plainRequest_append _ _
        (forEntries_plainRequest _ (fun _ => plainRequest_ite _ _ (by exact ⟨trivial, rfl, rfl⟩)) _)
        (plainRequest_single _ (by exact ⟨trivial, rfl, rfl⟩))

/-! ## The activate/deactivate pair -/

theorem applyCalls_append (m : MenuState) (A B : List HostCall) :
    applyCalls m (A ++ B) = applyCalls (applyCalls m A) B := by
  simp [applyCalls, List.foldl_append]

/-- Requests leave the enablement table as it is. -/
theorem applyCalls_of_requests (T : List HostCall) (hT : ∀ c ∈ T, c.isRequest)
    (m : MenuState) : applyCalls m T = m := by
  induction T generalizing m with
  | nil => rfl
  | cons a t ih =>
    have ha : applyCall m a = m := by
      have h1 := hT a (by simp)
      cases a <;> first | rfl | exact absurd h1 (by simp [HostCall.isRequest])
    have ht : ∀ c ∈ t, c.isRequest := fun c hc => hT c (by simp [hc])
    show applyCalls (applyCall m a) t = m
    rw [ha]
    exact ih ht m

/-- The activate branch leaves menu 20 disabled and menus 21, 22, 23 enabled. -/
theorem menuConsistent_activate (pluginID : Option String) (m : MenuState) :
    MenuConsistent pluginID (applyCalls m
      [setPluginMenuEnabled pluginID 21 1, setPluginMenuEnabled pluginID 22 1,
       setPluginMenuEnabled pluginID 23 1, setPluginMenuEnabled pluginID 20 0]) := by
  simp [MenuConsistent, applyCalls, applyCall]

/-- The deactivate branch leaves menu 20 enabled and menus 21, 22, 23 disabled. -/
theorem menuConsistent_deactivate (pluginID : Option String) (m : MenuState) :
    MenuConsistent pluginID (applyCalls m
      [setPluginMenuEnabled pluginID 21 0, setPluginMenuEnabled pluginID 22 0,
       setPluginMenuEnabled pluginID 23 0, setPluginMenuEnabled pluginID 20 1]) := by
  simp [MenuConsistent, applyCalls, applyCall]

/-- The enablement calls of `ts3plugin_initMenus` establish a consistent state. -/
theorem menuConsistent_initMenus (pluginID : Option String) (m0 : MenuState) :
    MenuConsistent pluginID (applyCalls m0 (ts3plugin_initMenus pluginID).hostCalls) := by
  simp [MenuConsistent, applyCalls, applyCall, ts3plugin_initMenus]

/-- One run of the handler keeps a consistent state consistent. -/
theorem menuConsistent_onMenuItemEvent (pluginID : Option String) (m : MenuState)
    (hm : MenuConsistent pluginID m) (e : MenuEvent) :
    MenuConsistent pluginID (applyCalls m
      (ts3plugin_onMenuItemEvent e.host pluginID e.serverConnectionHandlerID e.type
        e.menuItemID e.selectedItemID)) := by
  have hchan : ∀ s : MenuState, applyCalls s
      (channelSwitch e.host e.serverConnectionHandlerID e.menuItemID e.selectedItemID) = s :=
    fun s => applyCalls_of_requests _
      (fun c hc => (channelSwitch_plainRequest _ _ _ _ c hc).1) s
  cases htype : e.type with
  | PLUGIN_MENU_TYPE_GLOBAL =>
    simp only [ts3plugin_onMenuItemEvent]
    rw [applyCalls_append, hchan]
    by_cases h20 : e.menuItemID = MENU_ID_GLOBAL_21
    · rw [h20, globalSwitch_activate]
      exact menuConsistent_activate pluginID m
    · by_cases h21 : e.menuItemID = MENU_ID_GLOBAL_22
      · rw [h21, globalSwitch_deactivate]
        exact menuConsistent_deactivate pluginID m
      · rw [applyCalls_of_requests _
          (fun c hc => (globalSwitch_plainRequest _ _ _ _ h20 h21 c hc).1) m]
        exact hm
  | PLUGIN_MENU_TYPE_CHANNEL =>
    simp only [ts3plugin_onMenuItemEvent]
    rw [hchan]
    exact hm
  | PLUGIN_MENU_TYPE_CLIENT =>
    simpa [ts3plugin_onMenuItemEvent, clientSwitch, applyCalls] using hm
  | other v =>
    simpa [ts3plugin_onMenuItemEvent, applyCalls] using hm

/-- Any sequence of runs of the handler keeps a consistent state consistent. -/
theorem menuConsistent_runEvents (pluginID : Option String) (events : List MenuEvent) :
    ∀ m : MenuState, MenuConsistent pluginID m →
      MenuConsistent pluginID (runEvents pluginID m events) := by
  induction events with
  | nil => intro m hm; exact hm
  | cons e t ih =>
    intro m hm
    exact ih _ (menuConsistent_onMenuItemEvent pluginID m hm e)

/-- C1. Menu-enablement invariant of the activate/deactivate pair: starting from
the enablement that ts3plugin_initMenus sets (on any prior table), after every
finite sequence of ts3plugin_onMenuItemEvent calls, with any snapshot, type, menu
id and selected item each, exactly one of the menus 20 and 21 is enabled, and the
menus 22 and 23 are enabled if and only if menu 21 is. -/
theorem activate_deactivate_menus_stay_consistent (pluginID : Option String)
    (m0 : MenuState) (events : List MenuEvent) :
    ((sessionState pluginID m0 events pluginID 20 = true
        ∧ sessionState pluginID m0 events pluginID 21 = false)
      ∨ (sessionState pluginID m0 events pluginID 20 = false
        ∧ sessionState pluginID m0 events pluginID 21 = true))
    ∧ (sessionState pluginID m0 events pluginID 22 = true
        ↔ sessionState pluginID m0 events pluginID 21 = true)
    ∧ (sessionState pluginID m0 events pluginID 23 = true
        ↔ sessionState pluginID m0 events pluginID 21 = true) :=
  menuConsistent_runEvents pluginID events _ (menuConsistent_initMenus pluginID m0)

/-! ## Fire-and-forget -/

/-- C10. For every event and every host snapshot, every call issued by
ts3plugin_onMenuItemEvent is fire-and-forget: each move, kick-from-channel and
kick-from-server request carries the empty string, and each request of any kind
(move, kick, set-is-talker, channel-delete) carries a null return code. -/
theorem onMenuItemEvent_fireAndForget (h : Host) (pluginID : Option String) (sch : Nat)
    (type : PluginMenuType) (menuItemID : Int) (sel : Nat) :
    ∀ c ∈ ts3plugin_onMenuItemEvent h pluginID sch type menuItemID sel, c.fireAndForget := by
  intro c hc
  cases type with
  | PLUGIN_MENU_TYPE_GLOBAL =>
    rcases List.mem_append.mp hc with h1 | h1
    · by_cases h20 : menuItemID = MENU_ID_GLOBAL_21
      · subst h20
        rw [globalSwitch_activate] at h1
        simp at h1
        rcases h1 with rfl | rfl | rfl | rfl <;> exact trivial
      · by_cases h21 : menuItemID = MENU_ID_GLOBAL_22
        · subst h21
          rw [globalSwitch_deactivate] at h1
          simp at h1
          rcases h1 with rfl | rfl | rfl | rfl <;> exact trivial
        · exact (globalSwitch_plainRequest h pluginID sch menuItemID h20 h21 c h1).2
    · exact (channelSwitch_plainRequest h sch menuItemID sel c h1).2
  | PLUGIN_MENU_TYPE_CHANNEL =>
    exact (channelSwitch_plainRequest h sch menuItemID sel c hc).2
  | PLUGIN_MENU_TYPE_CLIENT =>
    simp [ts3plugin_onMenuItemEvent, clientSwitch] at hc
  | other v =>
    simp [ts3plugin_onMenuItemEvent] at hc

/-- Witness of C10 on the example snapshot: the move request of GLOBAL_2 for
client 4 is issued with the empty string and a null return code. -/
theorem onMenuItemEvent_fireAndForget_witness :
    requestClientMove 1 4 7 "" none
        ∈ ts3plugin_onMenuItemEvent exampleHost none 1 PLUGIN_MENU_TYPE_GLOBAL MENU_ID_GLOBAL_2 0
    ∧ (requestClientMove 1 4 7 "" none).fireAndForget :=
  ⟨by decide,
   onMenuItemEvent_fireAndForget exampleHost none 1 PLUGIN_MENU_TYPE_GLOBAL MENU_ID_GLOBAL_2 0
     (requestClientMove 1 4 7 "" none) (by decide)⟩

/-! ## The number of menu items -/

/-- C11, the code as it runs: `BEGIN_CREATE_MENUS(7)` declares and allocates
sz = 7 + 1 = 8 slots, while the 42 `CREATE_MENU_ITEM` calls and the terminating
NULL write 43 slots, so n = 43 at the assertion, `n == sz` is false, and the
slots at the indices 8 to 42 are written although they are not below sz. -/
theorem initMenus_assertion_fails (pluginID : Option String) :
    (ts3plugin_initMenus pluginID).sz = 8
    ∧ (ts3plugin_initMenus pluginID).n = 43
    ∧ (ts3plugin_initMenus pluginID).assertion = false
    ∧ (ts3plugin_initMenus pluginID).writtenIndices.filter
          (fun k => decide ((ts3plugin_initMenus pluginID).sz ≤ k))
        = List.range' 8 35 := by
  exact ⟨rfl, rfl, rfl, rfl⟩

/-! ## Menu ids and menu items -/

/-- C15, the code as it is: the descriptors "everyone (but you)" and "everyone"
under "==[from server]" of "=[clients in server]" are both created with type
GLOBAL and id MENU_ID_GLOBAL_16 (15), no descriptor carries MENU_ID_GLOBAL_17,
and so the (type, id) pairs are not pairwise distinct.  On the example snapshot
the branch both entries dispatch to spares the actor 3, whereas the branch of
MENU_ID_GLOBAL_17, which no entry reaches, kicks the actor as well. -/
theorem initMenus_registers_global16_twice :
    (ts3plugin_initMenus none).textsOf PLUGIN_MENU_TYPE_GLOBAL MENU_ID_GLOBAL_16
        = ["everyone (but you)", "everyone"]
    ∧ (ts3plugin_initMenus none).textsOf PLUGIN_MENU_TYPE_GLOBAL MENU_ID_GLOBAL_17 = []
    ∧ ¬ (ts3plugin_initMenus none).descriptorKeys.Nodup
    ∧ ts3plugin_onMenuItemEvent exampleHost none 1 PLUGIN_MENU_TYPE_GLOBAL MENU_ID_GLOBAL_16 0
        = [requestClientKickFromServer 1 2 "" none, requestClientKickFromServer 1 4 "" none,
           requestClientKickFromServer 1 5 "" none]
    ∧ ts3plugin_onMenuItemEvent exampleHost none 1 PLUGIN_MENU_TYPE_GLOBAL MENU_ID_GLOBAL_17 0
        = [requestClientKickFromServer 1 2 "" none, requestClientKickFromServer 1 4 "" none,
           requestClientKickFromServer 1 5 "" none, requestClientKickFromServer 1 3 "" none] := by
  refine ⟨by decide, by decide, by decide, by decide, by decide⟩

/-! ## The missing `break` after the GLOBAL case -/

/-- The CHANNEL switch does nothing on a menu id up to the last global id. -/
theorem channelSwitch_of_global_id (h : Host) (sch : Nat) (menuItemID : Int) (sel : Nat)
    (hhi : menuItemID ≤ MENU_ID_GLOBAL_28) :
    channelSwitch h sch menuItemID sel = [] := by
  have h2 : menuItemID ≠ MENU_ID_CHANNEL_2 := by intro e; rw [e] at hhi; exact absurd hhi (by decide)
  have h6 : menuItemID ≠ MENU_ID_CHANNEL_6 := by intro e; rw [e] at hhi; exact absurd hhi (by decide)
  have h7 : menuItemID ≠ MENU_ID_CHANNEL_7 := by intro e; rw [e] at hhi; exact absurd hhi (by decide)
  have h9 : menuItemID ≠ MENU_ID_CHANNEL_9 := by intro e; rw [e] at hhi; exact absurd hhi (by decide)
  have h10 : menuItemID ≠ MENU_ID_CHANNEL_10 := by
    intro e; rw [e] at hhi; exact absurd hhi (by decide)
  have h13 : menuItemID ≠ MENU_ID_CHANNEL_13 := by
    intro e; rw [e] at hhi; exact absurd hhi (by decide)
  have h14 : menuItemID ≠ MENU_ID_CHANNEL_14 := by
    intro e; rw [e] at hhi; exact absurd hhi (by decide)
  unfold channelSwitch
  rw [if_neg h2, if_neg h6, if_neg h7, if_neg h9, if_neg h10, if_neg h13, if_neg h14]

/-- C16. The missing break after the GLOBAL case is harmless for global menu ids:
the enum gives MENU_ID_GLOBAL_1..28 the values 0..27 and MENU_ID_CHANNEL_1..14
the values 28..41, and for every GLOBAL event whose menu id is in 0..27 the
CHANNEL switch that control falls into issues no call, so the calls of the whole
handler are the calls of the GLOBAL switch alone. -/
theorem global_fallthrough_harmless_for_global_ids (h : Host) (pluginID : Option String)
    (sch : Nat) (menuItemID : Int) (selectedItemID : Nat)
    (_hlo : 0 ≤ menuItemID) (hhi : menuItemID ≤ 27) :
    (MENU_ID_GLOBAL_1 = 0 ∧ MENU_ID_GLOBAL_28 = 27
      ∧ MENU_ID_CHANNEL_1 = 28 ∧ MENU_ID_CHANNEL_14 = 41)
    ∧ channelSwitch h sch menuItemID selectedItemID = []
    ∧ ts3plugin_onMenuItemEvent h pluginID sch PLUGIN_MENU_TYPE_GLOBAL menuItemID
          selectedItemID
        = globalSwitch h pluginID sch menuItemID := by
  have hch := channelSwitch_of_global_id h sch menuItemID selectedItemID hhi
  refine ⟨⟨rfl, rfl, rfl, rfl⟩, hch, ?_⟩
  simp only [ts3plugin_onMenuItemEvent, hch, List.append_nil]

/-- Witness of C16 on the example snapshot at menu id 5 (MENU_ID_GLOBAL_6): the
handler issues the two kicks of the GLOBAL switch and nothing else. -/
theorem global_fallthrough_harmless_for_global_ids_witness :
    (0 : Int) ≤ 5 ∧ (5 : Int) ≤ 27
    ∧ channelSwitch exampleHost 1 5 0 = []
    ∧ ts3plugin_onMenuItemEvent exampleHost none 1 PLUGIN_MENU_TYPE_GLOBAL 5 0
        = globalSwitch exampleHost none 1 5 :=
  ⟨by decide, by decide,
   (global_fallthrough_harmless_for_global_ids exampleHost none 1 5 0
      (by decide) (by decide)).2⟩

/-! ## Self is kicked last -/

/-- Calls aimed at clients other than `a`, followed by one call aimed at `a`:
the last call is the one aimed at `a`, and it is the only one aimed at `a`. -/
theorem self_last_of_append (A : List HostCall) (k : HostCall) (a : Nat)
    (hA : ∀ c ∈ A, c.targetClient ≠ some a) (hk : k.targetClient = some a) :
    (A ++ [k]).getLast? = some k
    ∧ (A ++ [k]).dropLast = A
    ∧ (A ++ [k]).countP (fun c => decide (c.targetClient = some a)) = 1 := by
  refine ⟨by simp, by simp, ?_⟩
  have h0 : A.countP (fun c => decide (c.targetClient = some a)) = 0 := by
    rw [List.countP_eq_zero]
    intro c hc
    simpa using hA c hc
  rw [List.countP_append, h0]
  simp [List.countP_cons, hk]

/-- C14. Self is kicked last: on a zero-terminated client list, a GLOBAL event
with menu id MENU_ID_GLOBAL_10 issues the kick-from-server requests of the list
entries that are in the actor's channel and are not the actor, in list order,
followed by one kick-from-server request for the actor as the final call, and no
other call; every call before the final one targets another client, and the
actor is targeted exactly once, wherever its id sits in the list. -/
theorem global10_kicks_self_last (h : Host) (pluginID : Option String)
    (sch selectedItemID : Nat) (clients : List Nat)
    (hz : 0 ∉ clients) (hlist : h.getClientList sch = clients ++ [0]) :
    ts3plugin_onMenuItemEvent h pluginID sch PLUGIN_MENU_TYPE_GLOBAL MENU_ID_GLOBAL_10
        selectedItemID
      = (clients.filter (fun c => decide
            (h.getChannelOfClient sch c = h.getChannelOfClient sch (h.getClientID sch)
              ∧ c ≠ h.getClientID sch))).map
          (fun c => requestClientKickFromServer sch c "" none)
        ++ [requestClientKickFromServer sch (h.getClientID sch) "" none]
    ∧ (ts3plugin_onMenuItemEvent h pluginID sch PLUGIN_MENU_TYPE_GLOBAL MENU_ID_GLOBAL_10
        selectedItemID).getLast?
      = some (requestClientKickFromServer sch (h.getClientID sch) "" none)
    ∧ (∀ c ∈ (ts3plugin_onMenuItemEvent h pluginID sch PLUGIN_MENU_TYPE_GLOBAL
          MENU_ID_GLOBAL_10 selectedItemID).dropLast,
        c.targetClient ≠ some (h.getClientID sch))
    ∧ (ts3plugin_onMenuItemEvent h pluginID sch PLUGIN_MENU_TYPE_GLOBAL MENU_ID_GLOBAL_10
        selectedItemID).countP (fun c => decide (c.targetClient = some (h.getClientID sch)))
      = 1 := by
  have key : ts3plugin_onMenuItemEvent h pluginID sch PLUGIN_MENU_TYPE_GLOBAL
        MENU_ID_GLOBAL_10 selectedItemID
      = (clients.filter (fun c => decide
            (h.getChannelOfClient sch c = h.getChannelOfClient sch (h.getClientID sch)
              ∧ c ≠ h.getClientID sch))).map
          (fun c => requestClientKickFromServer sch c "" none)
        ++ [requestClientKickFromServer sch (h.getClientID sch) "" none] := by
    simp [ts3plugin_onMenuItemEvent, globalSwitch, channelSwitch, hlist,
      forEntries_filter _ _ _ hz]
  have hA : ∀ c ∈ (clients.filter (fun c => decide
            (h.getChannelOfClient sch c = h.getChannelOfClient sch (h.getClientID sch)
              ∧ c ≠ h.getClientID sch))).map
          (fun c => requestClientKickFromServer sch c "" none),
      c.targetClient ≠ some (h.getClientID sch) := by
    intro c hc
    obtain ⟨x, hx, rfl⟩ := List.mem_map.mp hc
    have hx2 := (List.mem_filter.mp hx).2
    simp only [decide_eq_true_eq] at hx2
    simpa [HostCall.targetClient] using hx2.2
  have hs := self_last_of_append _
    (requestClientKickFromServer sch (h.getClientID sch) "" none) (h.getClientID sch) hA rfl
  rw [key]
  refine ⟨rfl, hs.1, ?_, hs.2.2⟩
  rw [hs.2.1]
  exact hA

/-- Witness of C14 on the example snapshot, where the actor 3 sits second in the
list: its channel-mates 2 and 5 are kicked from the server, then the actor. -/
theorem global10_kicks_self_last_witness :
    0 ∉ [2, 3, 4, 5] ∧ exampleHost.getClientList 1 = [2, 3, 4, 5] ++ [0] ∧
    ts3plugin_onMenuItemEvent exampleHost none 1 PLUGIN_MENU_TYPE_GLOBAL MENU_ID_GLOBAL_10 0
      = [requestClientKickFromServer 1 2 "" none, requestClientKickFromServer 1 5 "" none,
         requestClientKickFromServer 1 3 "" none] :=
  ⟨by decide, rfl,
   (global10_kicks_self_last exampleHost none 1 0 [2, 3, 4, 5]
      (by decide) rfl).1.trans (by decide)⟩

/-! ## The plugin-identifier buffer over init/shutdown cycles -/

end MassActions
